import Mathlib

/-!
Layout shell (`src/layouts/index.js`)

A shallow embedding of the module `src/layouts/index.js`:

* the tagged template handed to `injectGlobal` at module evaluation,
  with its two palette lookups `COLORS.blue[500]` and `COLORS.lime[500]`;
* the component `Layout = ({ children }) => <div>{children()}</div>`;
* the prop contract `Layout.propTypes = { children: PropTypes.func }`.

JavaScript evaluation is modelled by explicit state passing: every
operation takes the world it runs in and yields an outcome (a value or a
thrown error) together with the world it leaves behind.
-/

namespace Layouts

/-! ## Values -/

/-- First-order JavaScript values: what a callback can hand back and what
an element can hold as a child. -/
inductive Value where
  | undefined : Value
  | null : Value
  | boolean (b : Bool) : Value
  | number (n : Int) : Value
  | string (s : String) : Value
  | array (items : List Value) : Value
  | element (type : String) (attrs : List (String × String)) (children : List Value) : Value

/-- Errors a JavaScript evaluation can throw. -/
inductive JSError where
  | typeError (message : String) : JSError
  | thrown (payload : String) : JSError
  deriving DecidableEq, Repr

/-- The cooked pieces of a tagged template: the literal chunks and the
values of the `${...}` holes between them, `none` standing for the
JavaScript value `undefined`. -/
structure TaggedTemplate where
  strings : List String
  values : List (Option String)
  deriving DecidableEq, Repr

/-- The process-wide state: the rule sets handed to `injectGlobal` so far,
oldest first, and whatever else the host program keeps (`user`). -/
structure World (σ : Type) where
  styles : List TaggedTemplate
  user : σ

/-- Outcome of an evaluation: a value or a thrown error, and the world left
behind (effects made before a throw stay made). -/
abbrev Outcome (σ α : Type) := Except JSError α × World σ

/-- A JavaScript function value: it receives its argument list and the
current world. -/
abbrev Callback (σ : Type) := List Value → World σ → Outcome σ Value

/-- A property value: plain data or a function. -/
inductive JSVal (σ : Type) where
  | data (v : Value) : JSVal σ
  | func (f : Callback σ) : JSVal σ

/-- The props object a host passes to `Layout`; a missing `children` key
reads as `undefined`. -/
structure Props (σ : Type) where
  children : JSVal σ

/-- The palette `COLORS` imported from `../constants`: colour family name to
shade level to colour value. The constants module is not part of the
embedded file, so the palette is a parameter of module evaluation. -/
abbrev Palette := String → Option (Nat → Option String)

/-! ## Library operations the module calls -/

/-- Modelled from the spec: `injectGlobal` belongs to the styling library,
whose code is not under src/. The spec describes it as having no return
value and the side effect of adding the rule set to the global presentation
state; the model records the rule set handed over by each invocation, in
order of invocation. -/
def injectGlobal (rules : TaggedTemplate) (w : World σ) : World σ :=
  { w with styles := w.styles ++ [rules] }

/-- Modelled from the spec: the style text generated from a tagged template
is produced inside the styling library, not under src/. The literal chunks
and the hole values alternate in source order; `undef` is the text the
library substitutes for a hole whose value is `undefined` (the spec leaves
open whether that is an empty or an "undefined" text). -/
def cssText (undef : String) : List String → List (Option String) → String
  | s :: ss, v :: vs => s ++ v.getD undef ++ cssText undef ss vs
  | s :: _, [] => s
  | [], _ => ""

/-- The style text of one injected rule set. -/
def TaggedTemplate.text (undef : String) (t : TaggedTemplate) : String :=
  cssText undef t.strings t.values

/-- Modelled from the spec: `React.createElement`, the target of the JSX
expression in `Layout`, is library code not under src/. It builds an
element from a tag, its attributes and its children. -/
def createElement (type : String) (attrs : List (String × String))
    (children : List Value) : Value :=
  .element type attrs children

/-- A call expression `callee(args)`: a function value is applied, any other
value throws a TypeError. -/
def call (name : String) (callee : JSVal σ) (args : List Value) (w : World σ) :
    Outcome σ Value :=
  match callee with
  | .func f => f args w
  | .data _ => (.error (.typeError (name ++ " is not a function")), w)

/-- Property lookup `family[level]` on `COLORS.family`: reading a key of
`undefined` throws, a key that an object lacks reads as `undefined`. -/
def shade (COLORS : Palette) (family : String) (level : Nat) :
    Except JSError (Option String) :=
  match COLORS family with
  | none =>
    .error (.typeError ("Cannot read property " ++ toString level ++ " of undefined"))
  | some shades => .ok (shades level)

/-! ## The prop contract -/

/-- A checker of the prop-types library: the type name it expects and
whether the property is required. -/
structure TypeChecker where
  expectedType : String
  isRequired : Bool
  deriving DecidableEq, Repr

/-- The checker `PropTypes.func` (written without `.isRequired`). -/
def PropTypes.func : TypeChecker := ⟨"function", false⟩

/-- Whether a property value is `undefined` or `null` (`== null`). -/
def JSVal.isNullish : JSVal σ → Bool
  | .data .undefined => true
  | .data .null => true
  | _ => false

/-- Whether a property value is a function. -/
def JSVal.isFunction : JSVal σ → Bool
  | .func _ => true
  | .data _ => false

/-- The type name the prop-types library reports for a value. -/
def getPropType : JSVal σ → String
  | .func _ => "function"
  | .data .undefined => "undefined"
  | .data .null => "object"
  | .data (.boolean _) => "boolean"
  | .data (.number _) => "number"
  | .data (.string _) => "string"
  | .data (.array _) => "array"
  | .data (.element _ _ _) => "object"

/-- Modelled from the spec: the check a prop-types checker performs is
library code not under src/. The spec calls the property an optional
function: a value that is missing (`undefined` or `null`) passes unless the
checker is required, any other value passes exactly when its type is the
expected one; `some message` is a reported violation. -/
def TypeChecker.check (c : TypeChecker) (componentName propName : String)
    (v : JSVal σ) : Option String :=
  if v.isNullish then
    if c.isRequired then
      some ("The prop " ++ propName ++ " is marked as required in " ++ componentName)
    else none
  else if getPropType v = c.expectedType then none
  else
    some ("Invalid prop " ++ propName ++ " of type " ++ getPropType v ++
      " supplied to " ++ componentName ++ ", expected " ++ c.expectedType)

/-- Reading `props[name]`. -/
def Props.get (props : Props σ) (name : String) : JSVal σ :=
  if name = "children" then props.children else .data .undefined

/-- Modelled from the spec: running a declared prop contract against a props
object (library code not under src/): every declared property is checked,
the violations are collected. -/
def checkPropTypes (typeSpecs : List (String × TypeChecker)) (props : Props σ)
    (componentName : String) : List String :=
  typeSpecs.filterMap fun spec => spec.2.check componentName spec.1 (props.get spec.1)

/-! ## The module -/

/-- The literal chunks of the template tagged with `injectGlobal`. -/
def globalStrings : List String :=
  [ "\n  html \x7b\n    font-size: 16px;\n  \x7d\n\n  body \x7b\n    line-height: 1.4;\n  \x7d\n\n  a \x7b\n    color: ",
    ";\n  \x7d\n\n  ::selection \x7b\n    background-color: ",
    ";\n  \x7d\n" ]

/-- The rule set the module hands to `injectGlobal`, given the values of its
two holes. -/
def globalRules (blue lime : Option String) : TaggedTemplate :=
  ⟨globalStrings, [blue, lime]⟩

/-- The component `Layout`: `children` is taken out of the props, called with
no argument, and the value it returns becomes the only child of a `div`
that has no attribute. A throw of the call leaves the component. -/
def Layout (props : Props σ) (w : World σ) : Outcome σ Value :=
  match call "children" props.children [] w with
  | (.ok content, w1) => (.ok (createElement "div" [] [content]), w1)
  | (.error e, w1) => (.error e, w1)

/-- The prop contract assigned to `Layout.propTypes`. -/
def Layout.propTypes : List (String × TypeChecker) :=
  [("children", PropTypes.func)]

/-- What the module exports: the component and its declared prop contract. -/
structure Component (σ : Type) where
  render : Props σ → World σ → Outcome σ Value
  propTypes : List (String × TypeChecker)

/-- Evaluation of the module body, in the world its imports leave: the two
holes of the template are evaluated left to right, the template is handed
to `injectGlobal`, then `Layout` is defined and given its `propTypes`. A
throw aborts the evaluation at that point. -/
def evalModule (COLORS : Palette) (w : World σ) : Outcome σ (Component σ) :=
  match shade COLORS "blue" 500 with
  | .error e => (.error e, w)
  | .ok blue =>
    match shade COLORS "lime" 500 with
    | .error e => (.error e, w)
    | .ok lime =>
      (.ok { render := Layout, propTypes := Layout.propTypes },
        injectGlobal (globalRules blue lime) w)

/-- The world after the host renders `Layout` once for each props object of
a list, in order. -/
def renders (C : Component σ) : List (Props σ) → World σ → World σ
  | [], w => w
  | p :: ps, w => renders C ps (C.render p w).2

/-! ## Observation devices -/

/-- A text `t` contains the text `p`. -/
def Includes (t p : String) : Prop := ∃ u v : String, t = u ++ p ++ v

/-- A spy around a callback: it behaves as the callback does and appends the
argument list of every invocation to a log kept next to the host state. -/
def spy (f : Callback σ) : Callback (σ × List (List Value)) := fun args w =>
  let r := f args ⟨w.styles, w.user.1⟩
  (r.1, ⟨r.2.styles, (r.2.user, w.user.2 ++ [args])⟩)

mutual
/-- Text content of rendered output: texts and numbers show, `undefined`,
`null` and booleans render nothing, lists and elements show their items. -/
def textContent : Value → String
  | .string s => s
  | .number n => toString n
  | .array items => textContentList items
  | .element _ _ children => textContentList children
  | .undefined => ""
  | .null => ""
  | .boolean _ => ""
/-- Text content of a list of nodes. -/
def textContentList : List Value → String
  | [] => ""
  | v :: vs => textContent v ++ textContentList vs
end

/-- The palette of the spec's end-to-end scenario. -/
def scenarioPalette : Palette := fun family =>
  if family = "blue" then some (fun level => if level = 500 then some "#1111FF" else none)
  else if family = "lime" then some (fun level => if level = 500 then some "#22FF22" else none)
  else none

/-- A world with no injected rule set. -/
def emptyWorld : World Unit := ⟨[], ()⟩

/-- A callback returning the text "hello". -/
def helloCallback : Callback σ := fun _ w => (.ok (.string "hello"), w)

/-- A callback that returns the text "hello" after injecting a rule set of
its own. -/
def injectingCallback : Callback Unit := fun _ w =>
  (.ok (.string "hello"), injectGlobal ⟨["body \x7b margin: 0; \x7d"], []⟩ w)

/-- A palette whose blue family has no shade 500. -/
def paleBluePalette : Palette := fun family =>
  if family = "blue" then some (fun level => if level = 400 then some "#3333FF" else none)
  else if family = "lime" then some (fun level => if level = 500 then some "#22FF22" else none)
  else none

/-- A palette without a lime family. -/
def noLimePalette : Palette := fun family =>
  if family = "blue" then some (fun level => if level = 500 then some "#1111FF" else none)
  else none

/-! ## Helper lemmas -/

theorem includes_mid (u p v : String) : Includes (u ++ p ++ v) p :=
  ⟨u, v, rfl⟩

theorem includes_tail (u p : String) : Includes (u ++ p) p :=
  ⟨u, "", by rw [String.append_empty]⟩

theorem Includes.trans {t p q : String} (h1 : Includes t p) (h2 : Includes p q) :
    Includes t q := by
  obtain ⟨u, v, rfl⟩ := h1
  obtain ⟨a, b, rfl⟩ := h2
  exact ⟨u ++ a, b ++ v, by simp only [String.append_assoc]⟩

theorem globalRules_text (undef : String) (blue lime : Option String) :
    (globalRules blue lime).text undef =
      "\n  html \x7b\n    font-size: 16px;\n  \x7d\n\n  body \x7b\n    line-height: 1.4;\n  \x7d\n\n  "
        ++ ("a \x7b\n    color: " ++ blue.getD undef ++ ";\n  \x7d")
        ++ ("\n\n  "
        ++ ("::selection \x7b\n    background-color: " ++ lime.getD undef ++ ";\n  \x7d")
        ++ "\n") := by
  have h1 : ("\n  html \x7b\n    font-size: 16px;\n  \x7d\n\n  body \x7b\n    line-height: 1.4;\n  \x7d\n\n  a \x7b\n    color: " : String)
      = "\n  html \x7b\n    font-size: 16px;\n  \x7d\n\n  body \x7b\n    line-height: 1.4;\n  \x7d\n\n  "
        ++ "a \x7b\n    color: " := by decide
  have h2 : (";\n  \x7d\n\n  ::selection \x7b\n    background-color: " : String)
      = ";\n  \x7d" ++ ("\n\n  " ++ "::selection \x7b\n    background-color: ") := by decide
  have h3 : (";\n  \x7d\n" : String) = ";\n  \x7d" ++ "\n" := by decide
  simp only [TaggedTemplate.text, globalRules, globalStrings, cssText]
  rw [h1, h2, h3]
  simp only [String.append_assoc]

theorem globalRules_text_anchor (undef : String) (blue lime : Option String) :
    Includes ((globalRules blue lime).text undef)
      ("a \x7b\n    color: " ++ blue.getD undef ++ ";\n  \x7d") := by
  rw [globalRules_text]
  exact includes_mid _ _ _

theorem globalRules_text_selection (undef : String) (blue lime : Option String) :
    Includes ((globalRules blue lime).text undef)
      ("::selection \x7b\n    background-color: " ++ lime.getD undef ++ ";\n  \x7d") := by
  rw [globalRules_text]
  refine Includes.trans (p := "\n\n  "
        ++ ("::selection \x7b\n    background-color: " ++ lime.getD undef ++ ";\n  \x7d")
        ++ "\n") ?_ (includes_mid _ _ _)
  exact includes_tail _ _

theorem evalModule_of_families (COLORS : Palette) (blues limes : Nat → Option String)
    (w : World σ) (hb : COLORS "blue" = some blues) (hl : COLORS "lime" = some limes) :
    evalModule COLORS w =
      (.ok ⟨Layout, Layout.propTypes⟩, injectGlobal (globalRules (blues 500) (limes 500)) w) := by
  simp [evalModule, shade, hb, hl]

theorem Layout_func (f : Callback σ) (w : World σ) :
    Layout ⟨.func f⟩ w =
      ((f [] w).1.map fun c => Value.element "div" [] [c], (f [] w).2) := by
  unfold Layout call
  simp only
  rcases h : f [] w with ⟨r, w1⟩
  cases r <;> rfl

theorem Layout_data (v : Value) (w : World σ) :
    Layout ⟨.data v⟩ w = (.error (.typeError "children is not a function"), w) := by
  have h : ("children" ++ " is not a function" : String) = "children is not a function" := by
    decide
  simp [Layout, call, h]

theorem includes_inner (a b c d : String) : Includes (a ++ b ++ c ++ d) (b ++ c) :=
  ⟨a, d, by simp only [String.append_assoc]⟩

theorem Layout_world (p : Props σ) (v : World σ) :
    (Layout p v).2 = (call "children" p.children [] v).2 := by
  unfold Layout
  rcases h : call "children" p.children [] v with ⟨r, w1⟩
  cases r <;> rfl

theorem call_func_styles (p : Props σ) (v : World σ)
    (h : ∀ f, p.children = .func f → ∀ u, (f [] u).2.styles = u.styles) :
    (call "children" p.children [] v).2.styles = v.styles := by
  rcases p with ⟨c⟩
  cases c with
  | data d => rfl
  | func f => exact h f rfl v

theorem renders_Layout_styles (propTypes : List (String × TypeChecker)) (ps : List (Props σ))
    (h : ∀ p ∈ ps, ∀ f, p.children = .func f → ∀ u, (f [] u).2.styles = u.styles)
    (v : World σ) : (renders ⟨Layout, propTypes⟩ ps v).styles = v.styles := by
  induction ps generalizing v with
  | nil => rfl
  | cons p ps ih =>
    have hp := call_func_styles p v (h p (List.mem_cons_self _ _))
    have hrest := ih (fun q hq => h q (List.mem_cons_of_mem _ hq)) (Layout p v).2
    simp only [renders]
    rw [hrest, Layout_world, hp]

theorem evalModule_ok_inv (COLORS : Palette) (w w1 : World σ) (C : Component σ)
    (h : evalModule COLORS w = (.ok C, w1)) :
    ∃ blues limes, COLORS "blue" = some blues ∧ COLORS "lime" = some limes ∧
      C = ⟨Layout, Layout.propTypes⟩ ∧
      w1 = injectGlobal (globalRules (blues 500) (limes 500)) w := by
  cases hb : COLORS "blue" with
  | none => simp [evalModule, shade, hb] at h
  | some blues =>
    cases hl : COLORS "lime" with
    | none => simp [evalModule, shade, hb, hl] at h
    | some limes =>
      rw [evalModule_of_families COLORS blues limes w hb hl] at h
      simp only [Prod.mk.injEq, Except.ok.injEq] at h
      exact ⟨blues, limes, rfl, rfl, h.1.symm, h.2.symm⟩

/-! ## The claims -/

/-- C1: for every callback that returns content `c` when called with no
argument, rendering `Layout` with that callback as `children` yields a
single `div` with no attribute whose only child is `c` (and whose text
content is therefore the text content of `c`), in the world the callback
leaves. -/
theorem Layout_wraps_callback_result (f : Callback σ) (c : Value) (w w1 : World σ)
    (h : f [] w = (.ok c, w1)) :
    Layout ⟨.func f⟩ w = (.ok (.element "div" [] [c]), w1) ∧
      textContent (.element "div" [] [c]) = textContent c := by
  constructor
  · rw [Layout_func, h]
    rfl
  · simp [textContent, textContentList]

/-- Witness of C1: the callback returning the text "hello" renders to a
`div` whose only child, and whose text content, is "hello". -/
theorem Layout_wraps_callback_result_witness :
    helloCallback [] emptyWorld = (.ok (.string "hello"), emptyWorld) ∧
      Layout ⟨.func helloCallback⟩ emptyWorld
        = (.ok (.element "div" [] [.string "hello"]), emptyWorld) ∧
      textContent (.element "div" [] [.string "hello"]) = "hello" :=
  ⟨rfl, (Layout_wraps_callback_result helloCallback (.string "hello") emptyWorld emptyWorld rfl).1,
    (Layout_wraps_callback_result helloCallback (.string "hello") emptyWorld emptyWorld rfl).2.trans
      (by simp [textContent])⟩

/-- C2: for every palette with a blue-500 entry `blue` and a lime-500 entry
`lime`, module evaluation succeeds and hands `injectGlobal` one rule set
whose text contains the anchor rule with `color: blue` and the
`::selection` rule with `background-color: lime`, the palette values
appearing literally. -/
theorem globalStyle_contains_palette_colors (COLORS : Palette)
    (blues limes : Nat → Option String) (blue lime undef : String) (w : World σ)
    (hb : COLORS "blue" = some blues) (hb5 : blues 500 = some blue)
    (hl : COLORS "lime" = some limes) (hl5 : limes 500 = some lime) :
    (evalModule COLORS w).1 = .ok ⟨Layout, Layout.propTypes⟩ ∧
      (evalModule COLORS w).2.styles = w.styles ++ [globalRules (some blue) (some lime)] ∧
      Includes ((globalRules (some blue) (some lime)).text undef)
        ("a \x7b\n    color: " ++ blue ++ ";\n  \x7d") ∧
      Includes ((globalRules (some blue) (some lime)).text undef)
        ("::selection \x7b\n    background-color: " ++ lime ++ ";\n  \x7d") ∧
      Includes ((globalRules (some blue) (some lime)).text undef) ("color: " ++ blue) ∧
      Includes ((globalRules (some blue) (some lime)).text undef)
        ("background-color: " ++ lime) := by
  have ha := globalRules_text_anchor undef (some blue) (some lime)
  have hs := globalRules_text_selection undef (some blue) (some lime)
  simp only [Option.getD_some] at ha hs
  have e1 : ("a \x7b\n    color: " : String) = "a \x7b\n    " ++ "color: " := by decide
  have e2 : ("::selection \x7b\n    background-color: " : String)
      = "::selection \x7b\n    " ++ "background-color: " := by decide
  refine ⟨?_, ?_, ha, hs, ?_, ?_⟩
  · rw [evalModule_of_families COLORS blues limes w hb hl]
  · rw [evalModule_of_families COLORS blues limes w hb hl, hb5, hl5]
    rfl
  · refine Includes.trans ha ?_
    rw [e1]
    exact includes_inner _ _ _ _
  · refine Includes.trans hs ?_
    rw [e2]
    exact includes_inner _ _ _ _

/-- Witness of C2: the palette of the end-to-end scenario gives a style text
that contains "color: #1111FF" and "background-color: #22FF22". -/
theorem globalStyle_contains_palette_colors_witness :
    Includes ((globalRules (some "#1111FF") (some "#22FF22")).text "") "color: #1111FF" ∧
      Includes ((globalRules (some "#1111FF") (some "#22FF22")).text "")
        "background-color: #22FF22" ∧
      (evalModule scenarioPalette emptyWorld).2.styles
        = [globalRules (some "#1111FF") (some "#22FF22")] := by
  have h := globalStyle_contains_palette_colors scenarioPalette
    (fun level => if level = 500 then some "#1111FF" else none)
    (fun level => if level = 500 then some "#22FF22" else none)
    "#1111FF" "#22FF22" "" emptyWorld rfl rfl rfl rfl
  have e1 : ("color: " ++ "#1111FF" : String) = "color: #1111FF" := by decide
  have e2 : ("background-color: " ++ "#22FF22" : String) = "background-color: #22FF22" := by
    decide
  rw [e1, e2] at h
  exact ⟨h.2.2.2.2.1, h.2.2.2.2.2, h.2.1⟩

/-- C3, as stated, fails: after module evaluation with the scenario palette,
one render of `Layout` with a callback that injects a rule set of its own
leaves an injected style state different from the one before the render. -/
theorem render_with_injecting_callback_changes_styles :
    (renders ⟨Layout, Layout.propTypes⟩ [⟨.func injectingCallback⟩]
        (evalModule scenarioPalette emptyWorld).2).styles
      ≠ (evalModule scenarioPalette emptyWorld).2.styles := by
  decide

/-- C3, amended: a successful module evaluation hands `injectGlobal` the
Layout rules exactly once (they are appended to the injected rule sets,
which then hold them one more time than before); a render of `Layout`
injects nothing of its own, the world after it being the world the call of
`children` leaves; so after any number of renders whose callbacks leave the
injected rule sets alone, these are still the ones module evaluation
left. -/
theorem module_injects_once_render_injects_nothing (COLORS : Palette) (w w1 : World σ)
    (C : Component σ) (h : evalModule COLORS w = (.ok C, w1)) :
    (∃ blue lime, w1.styles = w.styles ++ [globalRules blue lime] ∧
        w1.styles.count (globalRules blue lime) = w.styles.count (globalRules blue lime) + 1) ∧
      (∀ (p : Props σ) (v : World σ),
        (C.render p v).2 = (call "children" p.children [] v).2) ∧
      (∀ ps : List (Props σ),
        (∀ p ∈ ps, ∀ f, p.children = .func f → ∀ u, (f [] u).2.styles = u.styles) →
        (renders C ps w1).styles = w1.styles) := by
  obtain ⟨blues, limes, -, -, rfl, rfl⟩ := evalModule_ok_inv COLORS w w1 C h
  refine ⟨⟨blues 500, limes 500, rfl, ?_⟩, fun p v => Layout_world p v, fun ps hps => ?_⟩
  · simp [injectGlobal, List.count_append]
  · exact renders_Layout_styles _ ps hps _

/-- Witness of C3 amended: from an empty sheet and the scenario palette, the
injected rule sets after module evaluation and two renders of the "hello"
callback are the Layout rules, once. -/
theorem module_injects_once_render_injects_nothing_witness :
    evalModule scenarioPalette emptyWorld
        = (.ok ⟨Layout, Layout.propTypes⟩,
            injectGlobal (globalRules (some "#1111FF") (some "#22FF22")) emptyWorld) ∧
      (renders ⟨Layout, Layout.propTypes⟩ [⟨.func helloCallback⟩, ⟨.func helloCallback⟩]
          (injectGlobal (globalRules (some "#1111FF") (some "#22FF22")) emptyWorld)).styles
        = [globalRules (some "#1111FF") (some "#22FF22")] :=
  ⟨rfl, (module_injects_once_render_injects_nothing scenarioPalette emptyWorld _ _ rfl).2.2
    [⟨.func helloCallback⟩, ⟨.func helloCallback⟩] (by
      intro p hp f hf u
      have hp2 : p = ⟨.func helloCallback⟩ := by
        simpa using hp
      subst hp2
      cases hf
      rfl)⟩

/-- C4: rendering `Layout` with props that have no `children` throws a
TypeError (a call of something that is not a function) and yields no
output; the world is left as it was. -/
theorem Layout_without_children_throws (w : World σ) :
    Layout ⟨.data .undefined⟩ w
      = (.error (.typeError "children is not a function"), w) :=
  Layout_data .undefined w

/-- C5: when both colour families exist but the blue or the lime family has
no shade 500, module evaluation raises no error: it succeeds and injects one
rule set, in whose text the value standing for `undefined` takes the place
of each missing colour. -/
theorem missing_shade_degrades_silently (COLORS : Palette)
    (blues limes : Nat → Option String) (undef : String) (w : World σ)
    (hb : COLORS "blue" = some blues) (hl : COLORS "lime" = some limes)
    (hmiss : blues 500 = none ∨ limes 500 = none) :
    (evalModule COLORS w).1 = .ok ⟨Layout, Layout.propTypes⟩ ∧
      (evalModule COLORS w).2.styles = w.styles ++ [globalRules (blues 500) (limes 500)] ∧
      ((globalRules (blues 500) (limes 500)).values.contains none = true) ∧
      (blues 500 = none →
        Includes ((globalRules (blues 500) (limes 500)).text undef)
          ("a \x7b\n    color: " ++ undef ++ ";\n  \x7d")) ∧
      (limes 500 = none →
        Includes ((globalRules (blues 500) (limes 500)).text undef)
          ("::selection \x7b\n    background-color: " ++ undef ++ ";\n  \x7d")) := by
  refine ⟨?_, ?_, ?_, fun h5 => ?_, fun h5 => ?_⟩
  · rw [evalModule_of_families COLORS blues limes w hb hl]
  · rw [evalModule_of_families COLORS blues limes w hb hl]
    rfl
  · rcases hmiss with h5 | h5 <;> simp [globalRules, h5]
  · have ha := globalRules_text_anchor undef (blues 500) (limes 500)
    rw [h5] at ha ⊢
    exact ha
  · have hs := globalRules_text_selection undef (blues 500) (limes 500)
    rw [h5] at hs ⊢
    exact hs

/-- Witness of C5: a palette whose blue family stops short of shade 500
still evaluates, and the anchor rule carries the stand-in text. -/
theorem missing_shade_degrades_silently_witness :
    (evalModule paleBluePalette emptyWorld).1 = .ok ⟨Layout, Layout.propTypes⟩ ∧
      (evalModule paleBluePalette emptyWorld).2.styles
        = [globalRules none (some "#22FF22")] ∧
      Includes ((globalRules none (some "#22FF22")).text "undefined")
        ("a \x7b\n    color: " ++ "undefined" ++ ";\n  \x7d") :=
  have h := missing_shade_degrades_silently paleBluePalette
    (fun level => if level = 400 then some "#3333FF" else none)
    (fun level => if level = 500 then some "#22FF22" else none)
    "undefined" emptyWorld rfl rfl (Or.inl rfl)
  ⟨h.1, h.2.1, h.2.2.2.1 rfl⟩

/-- C6: one render of `Layout` invokes the callback exactly once and with no
argument: a spy around the callback logs exactly one more invocation, with
an empty argument list; the rendered outcome is the callback's outcome
wrapped in the `div`, and the world after the render is the world after
that single invocation. -/
theorem Layout_invokes_callback_once (f : Callback σ)
    (w : World (σ × List (List Value))) :
    (Layout ⟨.func (spy f)⟩ w).2.user.2 = w.user.2 ++ [[]] ∧
      (Layout ⟨.func (spy f)⟩ w).1
        = (f [] ⟨w.styles, w.user.1⟩).1.map (fun c => Value.element "div" [] [c]) ∧
      (Layout ⟨.func (spy f)⟩ w).2.user.1 = (f [] ⟨w.styles, w.user.1⟩).2.user ∧
      ∀ (g : Callback σ) (v : World σ),
        Layout ⟨.func g⟩ v = ((g [] v).1.map (fun c => Value.element "div" [] [c]), (g [] v).2) := by
  refine ⟨?_, ?_, ?_, fun g v => Layout_func g v⟩ <;> rw [Layout_func] <;> rfl

/-- C8: the prop contract of `Layout` declares the single property
`children`, with the function checker, not required; the check reports
nothing exactly when `children` is missing (`undefined` or `null`) or is a
function, so it accepts absent children and every function and reports every
other value. -/
theorem Layout_propTypes_contract :
    Layout.propTypes.map Prod.fst = ["children"] ∧
      Layout.propTypes.map Prod.snd = [⟨"function", false⟩] ∧
      ∀ (σ : Type) (props : Props σ),
        (checkPropTypes Layout.propTypes props "Layout" = [] ↔
          (props.children.isNullish = true ∨ props.children.isFunction = true)) := by
  refine ⟨rfl, rfl, fun σ props => ?_⟩
  rcases props with ⟨c⟩
  cases c with
  | func f =>
    simp [checkPropTypes, Layout.propTypes, PropTypes.func, TypeChecker.check, Props.get,
      JSVal.isNullish, JSVal.isFunction, getPropType]
  | data v =>
    cases v <;>
      simp [checkPropTypes, Layout.propTypes, PropTypes.func, TypeChecker.check, Props.get,
        JSVal.isNullish, JSVal.isFunction, getPropType]

/-- C9: when the palette has no blue family or no lime family, module
evaluation throws a TypeError at the shade lookup: the world is left as it
was (nothing is injected) and no component comes out of it. -/
theorem missing_family_aborts_module (COLORS : Palette) (w : World σ)
    (h : COLORS "blue" = none ∨ COLORS "lime" = none) :
    ∃ message, evalModule COLORS w = (.error (.typeError message), w) := by
  cases hb : COLORS "blue" with
  | none =>
    exact ⟨"Cannot read property " ++ toString 500 ++ " of undefined", by
      simp only [evalModule, shade, hb]⟩
  | some blues =>
    have hl : COLORS "lime" = none := by
      rcases h with h | h
      · rw [hb] at h
        cases h
      · exact h
    exact ⟨"Cannot read property " ++ toString 500 ++ " of undefined", by
      simp only [evalModule, shade, hb, hl]⟩

/-- Witness of C9: a palette without a lime family; evaluation throws and the
empty sheet stays empty. -/
theorem missing_family_aborts_module_witness :
    noLimePalette "lime" = none ∧
      ∃ message,
        evalModule noLimePalette emptyWorld = (.error (.typeError message), emptyWorld) :=
  ⟨rfl, missing_family_aborts_module noLimePalette emptyWorld (Or.inr rfl)⟩

/-- C10: for every `children` value that is not a function, rendering
`Layout` throws a TypeError and wraps nothing; whenever a render of `Layout`
returns an element, `children` was a function. -/
theorem Layout_requires_callable_children :
    ∀ (σ : Type),
      (∀ (v : Value) (w : World σ),
        Layout ⟨.data v⟩ w = (.error (.typeError "children is not a function"), w)) ∧
      (∀ (props : Props σ) (w w1 : World σ) (out : Value),
        Layout props w = (.ok out, w1) → props.children.isFunction = true) := by
  intro σ
  refine ⟨fun v w => Layout_data v w, fun props w w1 out h => ?_⟩
  rcases props with ⟨c⟩
  cases c with
  | func f => rfl
  | data v =>
    rw [Layout_data] at h
    simp at h

/-- Witness of C10: a text, an element and a list of nodes as `children` all
throw, and the render that returns an element was given a function. -/
theorem Layout_requires_callable_children_witness :
    Layout ⟨.data (.string "hello")⟩ emptyWorld
        = (.error (.typeError "children is not a function"), emptyWorld) ∧
      Layout ⟨.data (.element "p" [] [.string "hello"])⟩ emptyWorld
        = (.error (.typeError "children is not a function"), emptyWorld) ∧
      Layout ⟨.data (.array [.string "a", .string "b"])⟩ emptyWorld
        = (.error (.typeError "children is not a function"), emptyWorld) ∧
      JSVal.isFunction (JSVal.func (helloCallback : Callback Unit)) = true :=
  ⟨(Layout_requires_callable_children Unit).1 _ _,
    (Layout_requires_callable_children Unit).1 _ _,
    (Layout_requires_callable_children Unit).1 _ _,
    (Layout_requires_callable_children Unit).2 ⟨.func helloCallback⟩ emptyWorld emptyWorld
      (.element "div" [] [.string "hello"]) rfl⟩

end Layouts
